import Mathlib

/-!
Verification of the predicate-compilation and evaluation engine of the
repository's query layer, together with the write-command parsing helpers
of `src/mongo/db/ops/write_ops_parsers.cpp`.

The matcher core itself (the `MatchExpressionParser` and the schema match
expressions) is not part of the visible sources; only its behavioral tests
(`src/mongo/db/matcher/schema/expression_parser_schema_test.cpp`) are.  Those
parts are therefore modelled from the specification, as marked on each
definition, and validated against the expectations recorded in the test file.
The write-ops functions are translated directly from the source.
-/

/-! ## The Value model -/

/-- Modelled from the spec: the typed, nested data representation shared by
filter documents and candidate documents — a tagged union over null, boolean,
32-bit integer, 64-bit integer, double, high-precision decimal, string,
date/timestamp, object-identifier, array-of-Value and object (ordered mapping
of field name to Value).  The double and decimal payloads are modelled as
exact rationals; every concrete numeric value appearing in the claims
(0, 0.5, 1.0, 2.0) is exactly representable, so the model is faithful on
them. -/
inductive Value where
  | nullV
  | boolV (b : Bool)
  | intV (n : Int)
  | longV (n : Int)
  | doubleV (q : ℚ)
  | decimalV (q : ℚ)
  | strV (s : String)
  | dateV (millis : Int)
  | oidV (hex : String)
  | arrV (elems : List Value)
  | objV (fields : List (String × Value))
deriving Repr

/-- A document is a top-level object: an ordered mapping of field names to
values, represented as an association list. -/
abbrev Document := List (String × Value)

mutual

/-- Modelled from the spec: structural (deep) equality over the Value model,
including nested documents and arrays. -/
def Value.beq : Value → Value → Bool
  | .nullV, .nullV => true
  | .boolV a, .boolV b => a == b
  | .intV a, .intV b => a == b
  | .longV a, .longV b => a == b
  | .doubleV a, .doubleV b => a == b
  | .decimalV a, .decimalV b => a == b
  | .strV a, .strV b => a == b
  | .dateV a, .dateV b => a == b
  | .oidV a, .oidV b => a == b
  | .arrV a, .arrV b => Value.beqList a b
  | .objV a, .objV b => Value.beqFields a b
  | _, _ => false

/-- Elementwise deep equality of two value lists. -/
def Value.beqList : List Value → List Value → Bool
  | [], [] => true
  | x :: xs, y :: ys => Value.beq x y && Value.beqList xs ys
  | _, _ => false

/-- Fieldwise deep equality of two field lists (names and values, in order). -/
def Value.beqFields : List (String × Value) → List (String × Value) → Bool
  | [], [] => true
  | (k1, v1) :: xs, (k2, v2) :: ys => k1 == k2 && Value.beq v1 v2 && Value.beqFields xs ys
  | _, _ => false

end

set_option maxHeartbeats 1000000 in
/-- Deep equality on values coincides with propositional equality. -/
theorem Value.beq_iff_eq (a b : Value) : Value.beq a b = true ↔ a = b := by
  induction a, b using Value.beq.induct
  case motive_2 xs ys => exact Value.beqFields xs ys = true ↔ xs = ys
  case motive_3 xs ys => exact Value.beqList xs ys = true ↔ xs = ys
  case case12 t x h1 h2 h3 h4 h5 h6 h7 h8 h9 h10 h11 =>
    cases t <;> cases x <;> simp_all [Value.beq]
  case case15 t x h1 h2 =>
    cases t with
    | nil => cases x with
      | nil => exact (h1 rfl rfl).elim
      | cons y ys => simp [Value.beqList]
    | cons z zs => cases x with
      | nil => simp [Value.beqList]
      | cons y ys => exact (h2 z zs y ys rfl rfl).elim
  case case18 t x h1 h2 =>
    cases t with
    | nil => cases x with
      | nil => exact (h1 rfl rfl).elim
      | cons y ys => simp [Value.beqFields]
    | cons z zs => cases x with
      | nil => simp [Value.beqFields]
      | cons y ys => exact (h2 z.1 z.2 zs y.1 y.2 ys rfl rfl).elim
  all_goals simp_all [Value.beq, Value.beqList, Value.beqFields]

instance : DecidableEq Value := fun a b =>
  decidable_of_iff (Value.beq a b = true) (Value.beq_iff_eq a b)

/-- The BSON type tag of a value, used by the type-check operator. -/
inductive BSONType where
  | nullT | boolT | intT | longT | doubleT | decimalT | stringT | dateT | oidT | arrayT | objectT
deriving DecidableEq, Repr

/-- The type tag carried by a value. -/
def Value.bsonType : Value → BSONType
  | .nullV => .nullT
  | .boolV _ => .boolT
  | .intV _ => .intT
  | .longV _ => .longT
  | .doubleV _ => .doubleT
  | .decimalV _ => .decimalT
  | .strV _ => .stringT
  | .dateV _ => .dateT
  | .oidV _ => .oidT
  | .arrV _ => .arrayT
  | .objV _ => .objectT

/-- Modelled from the spec: the numeric coercion view shared by the four
numeric Value subtypes (32-bit integer, 64-bit integer, double, decimal);
`none` on every non-numeric value. -/
def numValue? : Value → Option ℚ
  | .intV n => some (n : ℚ)
  | .longV n => some (n : ℚ)
  | .doubleV q => some q
  | .decimalV q => some q
  | _ => none

/-- Decidable equality for `Except` results, used to evaluate compilation
outcomes on concrete inputs. -/
instance {e a : Type} [DecidableEq e] [DecidableEq a] : DecidableEq (Except e a) := fun x y =>
  match x, y with
  | .ok u, .ok v => if h : u = v then .isTrue (by rw [h]) else .isFalse (by simp [h])
  | .error u, .error v => if h : u = v then .isTrue (by rw [h]) else .isFalse (by simp [h])
  | .ok _, .error _ => .isFalse (by simp)
  | .error _, .ok _ => .isFalse (by simp)

/-! ## Error taxonomy and capability context -/

/-- The error kinds shared by the predicate compiler and the surrounding
command layer, from §7 of the spec and `mongo/base/error_codes`. -/
inductive ErrorCodes where
  | FailedToParse
  | BadValue
  | InvalidLength
deriving DecidableEq, Repr

/-- Modelled from the spec: an immutable snapshot of the set of operator
keywords disallowed at the current nesting level.  (The extension-gate
decision and the collator are constant throughout the visible tests —
extensions disallowed, simple collator — and are therefore not varied by
the model.) -/
structure CapabilityContext where
  disallowed : List String
deriving DecidableEq, Repr

/-- Modelled from the spec: `isAllowed(keyword) -> bool`. -/
def CapabilityContext.isAllowed (ctx : CapabilityContext) (kw : String) : Bool :=
  !(ctx.disallowed.contains kw)

/-- Modelled from the spec: `restrict(keyword)` derives a new context with
the keyword added to the disallow set; no mutation of the original. -/
def CapabilityContext.restrict (ctx : CapabilityContext) (kw : String) : CapabilityContext :=
  ⟨kw :: ctx.disallowed⟩

/-- Modelled from the spec: the operator keywords meaningful only at the top
level of a full filter (global execution-mode modifiers), which the isolation
rule bans inside an object-sub-match. -/
def kTopLevelOnlyOperators : List String := ["$isolated", "$atomic"]

/-- Derive the narrowed context used for the argument of an object-sub-match:
every top-level-only operator keyword is added to the disallow set. -/
def CapabilityContext.restrictTopLevelOnly (ctx : CapabilityContext) : CapabilityContext :=
  kTopLevelOnlyOperators.foldl CapabilityContext.restrict ctx

/-- The capability context at the top of a parse call: nothing disallowed. -/
def topLevelContext : CapabilityContext := ⟨[]⟩

/-! ## The compiled expression tree and its evaluator -/

/-- Modelled from the spec: the compiled, immutable expression tree — leaf
predicates (comparison, type check, schema bounds, uniqueness) and composite
predicates (logical combinators, object sub-matcher) that recursively own
their child nodes.  The operators modelled are the ones exercised by the
repository's schema-parser tests: implicit equality, `$gt`, `$gte`, `$type`,
`$or`, and the `$_internalSchema{Min,Max}Items` / `UniqueItems` /
`ObjectMatch` family.  The implicit conjunction of a filter document is
represented by `andE`, with `trueE` as its unit; `orE` has `falseE` as its
unit. -/
inductive MatchExpression where
  | trueE
  | falseE
  | andE (l r : MatchExpression)
  | orE (l r : MatchExpression)
  | eqE (path : String) (arg : Value)
  | gtE (path : String) (arg : Value)
  | gteE (path : String) (arg : Value)
  | typeE (path : String) (t : BSONType)
  | minItemsE (path : String) (bound : ℕ)
  | maxItemsE (path : String) (bound : ℕ)
  | uniqueItemsE (path : String)
  | objectMatchE (path : String) (sub : MatchExpression)
deriving DecidableEq, Repr

/-- Resolve a field path inside a document: the value of the first field with
that name, if any.  (The visible tests exercise single-segment paths only, so
the model treats a path as one field name.) -/
def resolve (doc : Document) (path : String) : Option Value :=
  match doc.find? (fun kv => kv.1 == path) with
  | some kv => some kv.2
  | none => none

/-- Modelled from the spec: field-path resolution for element-oriented leaf
predicates — the predicate is satisfied if it holds for the resolved value
taken as a whole OR for any element when the resolved value is an array
(element-wise OR); a missing path never matches. -/
def elemTest (doc : Document) (path : String) (pred : Value → Bool) : Bool :=
  match resolve doc path with
  | some v => pred v || (match v with | .arrV xs => xs.any pred | _ => false)
  | none => false

/-- Modelled from the spec: array-shape operators always measure the resolved
array itself; any non-array resolved value (or missing path) fails to
match. -/
def arrayShapeTest (doc : Document) (path : String) (pred : List Value → Bool) : Bool :=
  match resolve doc path with
  | some (.arrV xs) => pred xs
  | _ => false

/-- Whether the elements of a list are pairwise structurally distinct: no
element deep-equals a later one. -/
def allDistinct : List Value → Bool
  | [] => true
  | x :: xs => !(xs.contains x) && allDistinct xs

/-- Numeric comparison used by `$gt`: true when both values are numeric and
the candidate strictly exceeds the argument; values of non-comparable types
never satisfy a numeric comparison. -/
def valueGt (arg candidate : Value) : Bool :=
  match numValue? arg, numValue? candidate with
  | some a, some c => a < c
  | _, _ => false

/-- Numeric comparison used by `$gte`. -/
def valueGte (arg candidate : Value) : Bool :=
  match numValue? arg, numValue? candidate with
  | some a, some c => a ≤ c
  | _, _ => false

/-- Equality predicate for the implicit-equality leaf: numeric values compare
under the numeric coercion rule, all other values by deep equality. -/
def valueEq (arg candidate : Value) : Bool :=
  match numValue? arg, numValue? candidate with
  | some a, some c => a == c
  | _, _ => candidate == arg

/-- Modelled from the spec: the evaluator — a pure traversal applying a
compiled tree to one candidate document and returning a boolean.  The object
sub-matcher matches if the resolved field value is an object satisfying the
sub-filter, or an array containing at least one element that is an object
satisfying the sub-filter (array auto-traversal); item-count bounds and
uniqueness measure the resolved array itself. -/
def MatchExpression.matchesBSON : MatchExpression → Document → Bool
  | .trueE, _ => true
  | .falseE, _ => false
  | .andE l r, doc => l.matchesBSON doc && r.matchesBSON doc
  | .orE l r, doc => l.matchesBSON doc || r.matchesBSON doc
  | .eqE path arg, doc => elemTest doc path (valueEq arg)
  | .gtE path arg, doc => elemTest doc path (valueGt arg)
  | .gteE path arg, doc => elemTest doc path (valueGte arg)
  | .typeE path t, doc => elemTest doc path (fun v => v.bsonType == t)
  | .minItemsE path k, doc => arrayShapeTest doc path (fun xs => decide (k ≤ xs.length))
  | .maxItemsE path k, doc => arrayShapeTest doc path (fun xs => decide (xs.length ≤ k))
  | .uniqueItemsE path, doc => arrayShapeTest doc path allDistinct
  | .objectMatchE path sub, doc =>
      match resolve doc path with
      | some (.objV fields) => sub.matchesBSON fields
      | some (.arrV xs) => xs.any (fun v =>
          match v with
          | .objV fields => sub.matchesBSON fields
          | _ => false)
      | _ => false

/-! ## The predicate compiler -/

/-- Modelled from the spec (design note: "extract non-negative exact integer
from any numeric Value"): accept a 32-bit integer, 64-bit integer, double or
decimal value; reject with `FailedToParse` any non-numeric value, any value
with a non-zero fractional part, and any negative value. -/
def parseIntegerArgument (v : Value) : Except ErrorCodes ℕ :=
  match numValue? v with
  | none => .error .FailedToParse
  | some q => if q.den = 1 ∧ 0 ≤ q.num then .ok q.num.toNat else .error .FailedToParse

/-- Modelled from the spec: the `$type` operator argument as exercised by the
tests — the type-name string selects the type tag to check. -/
def parseTypeArgument (path : String) (arg : Value) : Except ErrorCodes MatchExpression :=
  match arg with
  | .strV "string" => .ok (.typeE path .stringT)
  | _ => .error .FailedToParse

/-- Whether a key is an operator keyword: it begins with the reserved marker
character. -/
def isOperatorKeyword (s : String) : Bool :=
  match s.data with
  | [] => false
  | c :: _ => c == '$'

/-- Whether a field-path value is a document of operators (its first key
starts with the reserved marker) rather than a plain equality argument. -/
def isOperatorObject : Document → Bool
  | [] => false
  | (k, _) :: _ => isOperatorKeyword k

mutual

/-- Modelled from the spec: `compile(filterDocument, capabilityContext)`, a
recursive-descent translator from a filter document into an expression tree.
Each key is dispatched on whether it is an operator keyword (verified against
the capability context, else `BadValue`) or a field path; multiple pairs are
implicitly conjoined. -/
def parseDocument : Document → CapabilityContext → Except ErrorCodes MatchExpression
  | [], _ => .ok .trueE
  | (key, value) :: rest, ctx =>
      if isOperatorKeyword key then
        if ctx.isAllowed key then do
          let e ← parseTopLevelOperator key value ctx
          let es ← parseDocument rest ctx
          .ok (.andE e es)
        else .error .BadValue
      else do
        let e ← parsePathValue key value ctx
        let es ← parseDocument rest ctx
        .ok (.andE e es)
termination_by structural doc _ => doc

/-- Modelled from the spec: dispatch for an operator keyword appearing at the
top level of a (sub-)filter.  `$or`/`$and` take a nonempty array of
sub-filters compiled under the same context; the top-level-only execution
modifiers are accepted and contribute no predicate; anything else is an
unknown top-level operator (`BadValue`). -/
def parseTopLevelOperator (k : String) (v : Value) (ctx : CapabilityContext) :
    Except ErrorCodes MatchExpression :=
  if k = "$or" then
    match v with
    | .arrV elems =>
        if elems.isEmpty then .error .BadValue
        else (parseFilterList elems ctx).map (fun es => es.foldr .orE .falseE)
    | _ => .error .BadValue
  else if k = "$and" then
    match v with
    | .arrV elems =>
        if elems.isEmpty then .error .BadValue
        else (parseFilterList elems ctx).map (fun es => es.foldr .andE .trueE)
    | _ => .error .BadValue
  else if k = "$isolated" then .ok .trueE
  else if k = "$atomic" then .ok .trueE
  else .error .BadValue
termination_by structural v

/-- Compile every element of a logical combinator's argument array; each
element must itself be a filter document. -/
def parseFilterList : List Value → CapabilityContext → Except ErrorCodes (List MatchExpression)
  | [], _ => .ok []
  | .objV f :: rest, ctx => do
      let e ← parseDocument f ctx
      let es ← parseFilterList rest ctx
      .ok (e :: es)
  | _ :: _, _ => .error .BadValue
termination_by structural l _ => l

/-- Modelled from the spec: a field-path key paired with either a scalar
(implicit equality predicate) or a nested document of operators scoped to
that field path. -/
def parsePathValue : String → Value → CapabilityContext → Except ErrorCodes MatchExpression
  | path, .objV fields, ctx =>
      if isOperatorObject fields then parseSubOps path fields ctx
      else .ok (.eqE path (.objV fields))
  | path, v, _ => .ok (.eqE path v)
termination_by structural _ v _ => v

/-- Compile the operators of a field-scoped operator document, conjoined. -/
def parseSubOps : String → Document → CapabilityContext → Except ErrorCodes MatchExpression
  | _, [], _ => .ok .trueE
  | path, (op, arg) :: rest, ctx => do
      let e ← parseSubField path op arg ctx
      let es ← parseSubOps path rest ctx
      .ok (.andE e es)
termination_by structural _ doc _ => doc

/-- Modelled from the spec: the per-operator argument rules of the schema
family and the comparison/type operators exercised by the tests.
Minimum/maximum item count accept any numeric value equal to a non-negative
exact integer; unique-items requires the literal boolean `true`; object-match
requires an object argument and recursively compiles it under a context that
additionally disallows every top-level-only operator (isolation rule). -/
def parseSubField (path op : String) (arg : Value) (ctx : CapabilityContext) :
    Except ErrorCodes MatchExpression :=
  if op = "$gt" then .ok (.gtE path arg)
  else if op = "$gte" then .ok (.gteE path arg)
  else if op = "$type" then parseTypeArgument path arg
  else if op = "$_internalSchemaMinItems" then
    (parseIntegerArgument arg).map (MatchExpression.minItemsE path)
  else if op = "$_internalSchemaMaxItems" then
    (parseIntegerArgument arg).map (MatchExpression.maxItemsE path)
  else if op = "$_internalSchemaUniqueItems" then
    match arg with
    | .boolV true => .ok (.uniqueItemsE path)
    | _ => .error .FailedToParse
  else if op = "$_internalSchemaObjectMatch" then
    match arg with
    | .objV sub => (parseDocument sub ctx.restrictTopLevelOnly).map (MatchExpression.objectMatchE path)
    | _ => .error .FailedToParse
  else .error .BadValue
termination_by structural arg

end

/-- Modelled from the spec: the public compiler entry point,
`compile(filterDocument, capabilityContext) -> ExpressionTree | ParseError`.
-/
def MatchExpressionParser.parse (filter : Document) (ctx : CapabilityContext) :
    Except ErrorCodes MatchExpression :=
  parseDocument filter ctx

/-- Compile a filter and evaluate the compiled tree against one candidate
document. -/
def parseAndMatch (filter : Document) (ctx : CapabilityContext) (doc : Document) :
    Except ErrorCodes Bool :=
  (MatchExpressionParser.parse filter ctx).map (fun t => t.matchesBSON doc)

/-! ## Write-command parsing (from `src/mongo/db/ops/write_ops_parsers.cpp`) -/

/-- The specified limit to the number of operations that can be included in a
single write command (`kMaxWriteBatchSize`). -/
def kMaxWriteBatchSize : ℕ := 1000

/-- The write-command base options relevant here: the optional statement-id
list (`stmtIds`). -/
structure WriteCommandBase where
  stmtIds : Option (List Int)
deriving DecidableEq, Repr

/-- From `checkOpCountForCommand`: assert that the batch holds between 1 and
`kMaxWriteBatchSize` operations, and that a supplied statement-id list has
exactly one entry per operation; each violated assertion is an
`InvalidLength` error. -/
def checkOpCountForCommand (base : WriteCommandBase) (numOps : ℕ) : Except ErrorCodes Unit :=
  if numOps ≠ 0 ∧ numOps ≤ kMaxWriteBatchSize then
    match base.stmtIds with
    | none => .ok ()
    | some ids => if ids.length = numOps then .ok () else .error .InvalidLength
  else .error .InvalidLength

/-- An insert command after IDL decoding: whether its target namespace is
`system.indexes`, its write-command base, and its batch of documents. -/
structure InsertCommand where
  nsIsSystemDotIndexes : Bool
  writeCommandBase : WriteCommandBase
  documents : List Document
deriving DecidableEq, Repr

/-- One entry of an update command's batch (`write_ops::UpdateOpEntry`). -/
structure UpdateOpEntry where
  q : Document
  u : Document
  multi : Bool
  upsert : Bool
deriving DecidableEq, Repr

/-- An update command after IDL decoding. -/
structure UpdateCommand where
  writeCommandBase : WriteCommandBase
  updates : List UpdateOpEntry
deriving DecidableEq, Repr

/-- One entry of a delete command's batch (`write_ops::DeleteOpEntry`). -/
structure DeleteOpEntry where
  q : Document
  multi : Bool
deriving DecidableEq, Repr

/-- A delete command after IDL decoding. -/
structure DeleteCommand where
  writeCommandBase : WriteCommandBase
  deletes : List DeleteOpEntry
deriving DecidableEq, Repr

/-- From `InsertOp::parse`: inserts into `system.indexes` are limited to a
single insert (`InvalidLength`), then the common batch-count check runs. -/
def InsertOp.parse (c : InsertCommand) : Except ErrorCodes InsertCommand :=
  if c.nsIsSystemDotIndexes ∧ c.documents.length ≠ 1 then .error .InvalidLength
  else (checkOpCountForCommand c.writeCommandBase c.documents.length).map (fun _ => c)

/-- From `UpdateOp::parse`: only the common batch-count check. -/
def UpdateOp.parse (c : UpdateCommand) : Except ErrorCodes UpdateCommand :=
  (checkOpCountForCommand c.writeCommandBase c.updates.length).map (fun _ => c)

/-- From `DeleteOp::parse`: only the common batch-count check. -/
def DeleteOp.parse (c : DeleteCommand) : Except ErrorCodes DeleteCommand :=
  (checkOpCountForCommand c.writeCommandBase c.deletes.length).map (fun _ => c)

/-- From `BSONElement::numberDouble`, as used by `readMultiDeleteProperty`:
the numeric view of an element — its value for the four numeric types and 0
for every other type.  (The double/decimal payloads are exact rationals in
this model; the claim's concrete values are exactly representable.) -/
def numberDouble : Value → ℚ
  | .intV n => (n : ℚ)
  | .longV n => (n : ℚ)
  | .doubleV q => q
  | .decimalV q => q
  | _ => 0

/-- From `write_ops::readMultiDeleteProperty`: read the `limit` field of a
delete object through `numberDouble` (a double, so an illegal fractional
portion is not discarded); only 0 and 1 are accepted (`FailedToParse`
otherwise), and the result is `limit == 0`. -/
def readMultiDeleteProperty (limitElement : Value) : Except ErrorCodes Bool :=
  let limit := numberDouble limitElement
  if limit = 0 ∨ limit = 1 then .ok (decide (limit = 0))
  else .error .FailedToParse

/-- From `write_ops::writeMultiDeleteProperty`: append 0 when `isMulti`,
else 1.  (The field name is irrelevant to the value written and is not
modelled.) -/
def writeMultiDeleteProperty (isMulti : Bool) : Value :=
  if isMulti then .intV 0 else .intV 1

/-- The first statement id assigned when no explicit list is given
(`kFirstStmtId`). -/
def kFirstStmtId : Int := 0

/-- Two's-complement narrowing of an unsigned value to the `int32_t` return
type of `getStmtIdForWriteAt`. -/
def toInt32 (n : ℕ) : Int :=
  if n % 2 ^ 32 < 2 ^ 31 then ((n % 2 ^ 32 : ℕ) : Int)
  else ((n % 2 ^ 32 : ℕ) : Int) - 2 ^ 32

/-- From `write_ops::getStmtIdForWriteAt`: the id at `writePos` of the
statement-id list when one is present (`none` models the out-of-range throw
of `std::vector::at`); else `kFirstStmtId + writePos`, where the sum is
computed in `size_t` (64-bit) and narrowed to the `int32_t` return type. -/
def getStmtIdForWriteAt (base : WriteCommandBase) (writePos : ℕ) : Option Int :=
  match base.stmtIds with
  | some ids => ids.get? writePos
  | none => some (toInt32 ((kFirstStmtId.toNat + writePos) % 2 ^ 64))

/-- The InvalidLength condition asserted by the specification's claim for
write commands, stated from the claim's words for comparison with the code:
the batch holds 0 operations or more than `kMaxWriteBatchSize`, or a
statement-id list is supplied whose length differs from the batch size. -/
def specInvalidLengthCondition (base : WriteCommandBase) (numOps : ℕ) : Bool :=
  decide (numOps = 0) || decide (kMaxWriteBatchSize < numOps) ||
    (match base.stmtIds with
     | none => false
     | some ids => decide (ids.length ≠ numOps))

/-! ## Shared lemmas about the evaluator and the compiler -/

/-- An array-shape operator matches exactly when the path resolves to an
array satisfying its predicate. -/
theorem arrayShapeTest_eq_true_iff (doc : Document) (p : String) (pred : List Value → Bool) :
    arrayShapeTest doc p pred = true ↔
      ∃ xs, resolve doc p = some (.arrV xs) ∧ pred xs = true := by
  unfold arrayShapeTest
  rcases h : resolve doc p with _ | v
  · simp
  · cases v <;> simp

/-- The element test used by the object sub-matcher on array elements holds
exactly on object elements satisfying the sub-filter. -/
theorem objElem_match_iff (sub : MatchExpression) (v : Value) :
    (match v with | .objV fields => sub.matchesBSON fields | _ => false) = true ↔
      ∃ fields, v = .objV fields ∧ sub.matchesBSON fields = true := by
  cases v <;> simp

/-- `allDistinct` decides pairwise structural distinctness (`List.Nodup`,
i.e. `Pairwise (· ≠ ·)`) of the element list. -/
theorem allDistinct_iff_nodup (xs : List Value) : allDistinct xs = true ↔ xs.Nodup := by
  induction xs with
  | nil => simp [allDistinct]
  | cons x rest ih => simp [allDistinct, List.nodup_cons, ih, List.contains, List.elem_iff]

/-- A filter binding one non-operator field path to one operator document
compiles through `parseSubField` for that operator, wrapped in the implicit
conjunctions. -/
theorem parse_single_op (p op : String) (v : Value) (ctx : CapabilityContext)
    (hp : isOperatorKeyword p = false) (hop : isOperatorKeyword op = true) :
    MatchExpressionParser.parse [(p, .objV [(op, v)])] ctx =
      (parseSubField p op v ctx).map (fun e => .andE (.andE e .trueE) .trueE) := by
  simp only [MatchExpressionParser.parse, parseDocument, hp, parsePathValue, isOperatorObject,
    hop, parseSubOps, if_true, if_false, Bool.false_eq_true, ite_false, ite_true]
  rcases parseSubField p op v ctx with e | t <;> simp [Except.map, Except.bind, bind]

/-- Reduction of `parseSubField` at the minimum-item-count keyword. -/
theorem parseSubField_minItems (p : String) (v : Value) (ctx : CapabilityContext) :
    parseSubField p "$_internalSchemaMinItems" v ctx
      = (parseIntegerArgument v).map (MatchExpression.minItemsE p) := by
  unfold parseSubField
  simp

/-- Reduction of `parseSubField` at the maximum-item-count keyword. -/
theorem parseSubField_maxItems (p : String) (v : Value) (ctx : CapabilityContext) :
    parseSubField p "$_internalSchemaMaxItems" v ctx
      = (parseIntegerArgument v).map (MatchExpression.maxItemsE p) := by
  unfold parseSubField
  simp

/-- Reduction of `parseSubField` at the unique-items keyword. -/
theorem parseSubField_uniqueItems (p : String) (v : Value) (ctx : CapabilityContext) :
    parseSubField p "$_internalSchemaUniqueItems" v ctx
      = (match v with
         | .boolV true => .ok (.uniqueItemsE p)
         | _ => .error .FailedToParse) := by
  unfold parseSubField
  simp

/-- Reduction of `parseSubField` at the object-match keyword. -/
theorem parseSubField_objectMatch (p : String) (v : Value) (ctx : CapabilityContext) :
    parseSubField p "$_internalSchemaObjectMatch" v ctx
      = (match v with
         | .objV sub =>
            (parseDocument sub ctx.restrictTopLevelOnly).map (MatchExpression.objectMatchE p)
         | _ => .error .FailedToParse) := by
  unfold parseSubField
  simp

/-! ## Claim theorems -/

/-- C1: once compilation of a filter succeeds, evaluating the compiled
expression tree against any candidate document is total and error-free —
every `matchesBSON` call returns a boolean (a non-match is the boolean
`false`, never an error path).  Totality holds by construction: the evaluator
is a total function into `Bool`, with no error component in its type. -/
theorem compiled_tree_evaluation_total (filter : Document) (ctx : CapabilityContext)
    (tree : MatchExpression) (doc : Document)
    (_hok : MatchExpressionParser.parse filter ctx = .ok tree) :
    tree.matchesBSON doc = true ∨ tree.matchesBSON doc = false := by
  cases tree.matchesBSON doc
  · exact Or.inr rfl
  · exact Or.inl rfl

/-- Witness for C1 at a concrete compiled filter and candidate. -/
theorem compiled_tree_evaluation_total_witness :
    (MatchExpression.andE (.andE (.uniqueItemsE "x") .trueE) .trueE).matchesBSON [] = true ∨
    (MatchExpression.andE (.andE (.uniqueItemsE "x") .trueE) .trueE).matchesBSON [] = false :=
  compiled_tree_evaluation_total
    [("x", .objV [("$_internalSchemaUniqueItems", .boolV true)])] topLevelContext
    (.andE (.andE (.uniqueItemsE "x") .trueE) .trueE) [] (by decide)

/-- C3: compiling the unique-items operator succeeds only when its argument
is the literal boolean `true`; every other argument value fails compilation
with `FailedToParse`. -/
theorem uniqueItems_requires_literal_true :
    (∀ (p : String) (v : Value), isOperatorKeyword p = false → v ≠ .boolV true →
      MatchExpressionParser.parse [(p, .objV [("$_internalSchemaUniqueItems", v)])]
        topLevelContext = .error .FailedToParse)
  ∧ (∀ p : String, isOperatorKeyword p = false →
      MatchExpressionParser.parse [(p, .objV [("$_internalSchemaUniqueItems", .boolV true)])]
        topLevelContext = .ok (.andE (.andE (.uniqueItemsE p) .trueE) .trueE)) := by
  constructor
  · intro p v hp hv
    rw [parse_single_op p "$_internalSchemaUniqueItems" v topLevelContext hp (by decide),
      parseSubField_uniqueItems]
    cases v
    case boolV b =>
      cases b
      · rfl
      · exact absurd rfl hv
    all_goals rfl
  · intro p hp
    rw [parse_single_op p "$_internalSchemaUniqueItems" (.boolV true) topLevelContext hp (by decide),
      parseSubField_uniqueItems]
    rfl

/-- Witness for C3: the double 1.0, the integer 0, the empty string and the
boolean false all fail with FailedToParse, and the literal true compiles. -/
theorem uniqueItems_requires_literal_true_witness :
    MatchExpressionParser.parse [("x", .objV [("$_internalSchemaUniqueItems", .doubleV 1)])]
      topLevelContext = .error .FailedToParse ∧
    MatchExpressionParser.parse [("x", .objV [("$_internalSchemaUniqueItems", .intV 0)])]
      topLevelContext = .error .FailedToParse ∧
    MatchExpressionParser.parse [("x", .objV [("$_internalSchemaUniqueItems", .strV "")])]
      topLevelContext = .error .FailedToParse ∧
    MatchExpressionParser.parse [("x", .objV [("$_internalSchemaUniqueItems", .boolV false)])]
      topLevelContext = .error .FailedToParse ∧
    MatchExpressionParser.parse [("x", .objV [("$_internalSchemaUniqueItems", .boolV true)])]
      topLevelContext = .ok (.andE (.andE (.uniqueItemsE "x") .trueE) .trueE) :=
  ⟨uniqueItems_requires_literal_true.1 "x" (.doubleV 1) (by decide) (by decide),
   uniqueItems_requires_literal_true.1 "x" (.intV 0) (by decide) (by decide),
   uniqueItems_requires_literal_true.1 "x" (.strV "") (by decide) (by decide),
   uniqueItems_requires_literal_true.1 "x" (.boolV false) (by decide) (by decide),
   uniqueItems_requires_literal_true.2 "x" (by decide)⟩

/-- C2: for every numeric argument (32-bit integer, 64-bit integer, double
or decimal) whose value is a non-negative exact integer k, compiling the
minimum-item-count (resp. maximum-item-count) operator succeeds and the
compiled node matches exactly when the field path resolves to an array of
length >= k (resp. <= k); any non-array resolved value does not match; a
negative or fractional argument fails compilation with FailedToParse. -/
theorem minMaxItems_parse_and_match :
    (∀ p : String, isOperatorKeyword p = false → ∀ (k : ℕ) (v : Value),
      numValue? v = some (k : ℚ) →
      ∃ t, MatchExpressionParser.parse [(p, .objV [("$_internalSchemaMinItems", v)])]
          topLevelContext = .ok t ∧
        ∀ doc : Document, t.matchesBSON doc = true ↔
          ∃ xs, resolve doc p = some (.arrV xs) ∧ k ≤ xs.length)
  ∧ (∀ p : String, isOperatorKeyword p = false → ∀ (k : ℕ) (v : Value),
      numValue? v = some (k : ℚ) →
      ∃ t, MatchExpressionParser.parse [(p, .objV [("$_internalSchemaMaxItems", v)])]
          topLevelContext = .ok t ∧
        ∀ doc : Document, t.matchesBSON doc = true ↔
          ∃ xs, resolve doc p = some (.arrV xs) ∧ xs.length ≤ k)
  ∧ (∀ p : String, isOperatorKeyword p = false → ∀ (v : Value) (q : ℚ),
      numValue? v = some q → q < 0 ∨ q.den ≠ 1 →
      MatchExpressionParser.parse [(p, .objV [("$_internalSchemaMinItems", v)])]
        topLevelContext = .error .FailedToParse ∧
      MatchExpressionParser.parse [(p, .objV [("$_internalSchemaMaxItems", v)])]
        topLevelContext = .error .FailedToParse) := by
  have hint : ∀ (k : ℕ) (v : Value), numValue? v = some (k : ℚ) →
      parseIntegerArgument v = .ok k := by
    intro k v hv
    unfold parseIntegerArgument
    rw [hv]
    simp
  have hbadint : ∀ (v : Value) (q : ℚ), numValue? v = some q → q < 0 ∨ q.den ≠ 1 →
      parseIntegerArgument v = .error .FailedToParse := by
    intro v q hq hbad
    unfold parseIntegerArgument
    rw [hq]
    have hno : ¬ (q.den = 1 ∧ 0 ≤ q.num) := by
      rintro ⟨hd, hn⟩
      rcases hbad with hneg | hden
      · exact absurd (Rat.num_nonneg.mp hn) (not_le.mpr hneg)
      · exact hden hd
    show (if q.den = 1 ∧ 0 ≤ q.num then (Except.ok q.num.toNat : Except ErrorCodes ℕ)
        else .error .FailedToParse) = .error .FailedToParse
    exact if_neg hno
  refine ⟨?_, ?_, ?_⟩
  · intro p hp k v hv
    refine ⟨.andE (.andE (.minItemsE p k) .trueE) .trueE, ?_, ?_⟩
    · rw [parse_single_op p "$_internalSchemaMinItems" v topLevelContext hp (by decide),
        parseSubField_minItems, hint k v hv]
      rfl
    · intro doc
      simp [MatchExpression.matchesBSON, arrayShapeTest_eq_true_iff]
  · intro p hp k v hv
    refine ⟨.andE (.andE (.maxItemsE p k) .trueE) .trueE, ?_, ?_⟩
    · rw [parse_single_op p "$_internalSchemaMaxItems" v topLevelContext hp (by decide),
        parseSubField_maxItems, hint k v hv]
      rfl
    · intro doc
      simp [MatchExpression.matchesBSON, arrayShapeTest_eq_true_iff]
  · intro p hp v q hq hbad
    constructor
    · rw [parse_single_op p "$_internalSchemaMinItems" v topLevelContext hp (by decide),
        parseSubField_minItems, hbadint v q hq hbad]
      rfl
    · rw [parse_single_op p "$_internalSchemaMaxItems" v topLevelContext hp (by decide),
        parseSubField_maxItems, hbadint v q hq hbad]
      rfl

/-- Witness for C2 at bound 2: an integer argument compiles and the node
measures array length; a fractional double argument fails for both
operators. -/
theorem minMaxItems_parse_and_match_witness :
    (∃ t, MatchExpressionParser.parse [("x", .objV [("$_internalSchemaMinItems", .intV 2)])]
        topLevelContext = .ok t ∧
      ∀ doc : Document, t.matchesBSON doc = true ↔
        ∃ xs, resolve doc "x" = some (.arrV xs) ∧ 2 ≤ xs.length)
  ∧ (∃ t, MatchExpressionParser.parse [("x", .objV [("$_internalSchemaMaxItems", .decimalV 2)])]
        topLevelContext = .ok t ∧
      ∀ doc : Document, t.matchesBSON doc = true ↔
        ∃ xs, resolve doc "x" = some (.arrV xs) ∧ xs.length ≤ 2)
  ∧ MatchExpressionParser.parse [("x", .objV [("$_internalSchemaMinItems", .doubleV (mkRat 5 2))])]
      topLevelContext = .error .FailedToParse
  ∧ MatchExpressionParser.parse [("x", .objV [("$_internalSchemaMaxItems", .longV (-2))])]
      topLevelContext = .error .FailedToParse :=
  ⟨minMaxItems_parse_and_match.1 "x" (by decide) 2 (.intV 2) (by norm_num [numValue?]),
   minMaxItems_parse_and_match.2.1 "x" (by decide) 2 (.decimalV 2) (by norm_num [numValue?]),
   (minMaxItems_parse_and_match.2.2 "x" (by decide) (.doubleV (mkRat 5 2)) (mkRat 5 2) rfl
     (Or.inr (by decide))).1,
   (minMaxItems_parse_and_match.2.2 "x" (by decide) (.longV (-2)) (-2) (by norm_num [numValue?])
     (Or.inl (by norm_num))).2⟩

/-- C4: a compiled unique-items node matches exactly when the field path
resolves to an array whose elements are pairwise structurally distinct under
deep equality over the Value model (`List.Nodup`); any non-array resolved
value fails to match, an empty or single-element array trivially matches, and
the concrete examples behave as claimed (scalar 1, [], [0],
a five-element mixed array with no structural duplicate, a string duplicate,
and a nested-object duplicate). -/
theorem uniqueItems_matches_pairwise_distinct :
    (∀ (p : String) (doc : Document),
      (MatchExpression.uniqueItemsE p).matchesBSON doc = true ↔
        ∃ xs, resolve doc p = some (.arrV xs) ∧ xs.Nodup)
  ∧ parseAndMatch [("x", .objV [("$_internalSchemaUniqueItems", .boolV true)])] topLevelContext
      [("x", .intV 1)] = .ok false
  ∧ parseAndMatch [("x", .objV [("$_internalSchemaUniqueItems", .boolV true)])] topLevelContext
      [("x", .arrV [])] = .ok true
  ∧ parseAndMatch [("x", .objV [("$_internalSchemaUniqueItems", .boolV true)])] topLevelContext
      [("x", .arrV [.intV 0])] = .ok true
  ∧ parseAndMatch [("x", .objV [("$_internalSchemaUniqueItems", .boolV true)])] topLevelContext
      [("x", .arrV [.strV "7", .nullV, .arrV [], .objV [], .intV 7])] = .ok true
  ∧ parseAndMatch [("x", .objV [("$_internalSchemaUniqueItems", .boolV true)])] topLevelContext
      [("x", .arrV [.strV "dup", .strV "dup", .intV 7])] = .ok false
  ∧ parseAndMatch [("x", .objV [("$_internalSchemaUniqueItems", .boolV true)])] topLevelContext
      [("x", .arrV [.objV [("x", .intV 1)], .objV [("x", .intV 1)]])] = .ok false := by
  refine ⟨?_, by decide, by decide, by decide, by decide, by decide, by decide⟩
  intro p doc
  simp [MatchExpression.matchesBSON, arrayShapeTest_eq_true_iff, allDistinct_iff_nodup]

/-- C5: compiling the object-match operator succeeds only when its argument
is an object (a nested filter document); every non-object argument value
fails compilation with FailedToParse, while an object argument compiles. -/
theorem objectMatch_requires_object_argument :
    (∀ (p : String) (v : Value), isOperatorKeyword p = false → (∀ fields, v ≠ .objV fields) →
      MatchExpressionParser.parse [(p, .objV [("$_internalSchemaObjectMatch", v)])]
        topLevelContext = .error .FailedToParse)
  ∧ (MatchExpressionParser.parse
      [("a", .objV [("$_internalSchemaObjectMatch", .objV [("b", .objV [("$gte", .intV 0)])])])]
      topLevelContext).isOk = true := by
  constructor
  · intro p v hp hv
    rw [parse_single_op p "$_internalSchemaObjectMatch" v topLevelContext hp (by decide),
      parseSubField_objectMatch]
    cases v
    case objV fields => exact absurd rfl (hv fields)
    all_goals rfl
  · decide

/-- Witness for C5: the integer 1, a string and an array all fail with
FailedToParse. -/
theorem objectMatch_requires_object_argument_witness :
    MatchExpressionParser.parse [("a", .objV [("$_internalSchemaObjectMatch", .intV 1)])]
      topLevelContext = .error .FailedToParse
  ∧ MatchExpressionParser.parse [("a", .objV [("$_internalSchemaObjectMatch", .strV "string")])]
      topLevelContext = .error .FailedToParse
  ∧ MatchExpressionParser.parse
      [("a", .objV [("$_internalSchemaObjectMatch",
        .arrV [.objV [("a", .intV 1)], .objV [("b", .intV 1)]])])]
      topLevelContext = .error .FailedToParse :=
  ⟨objectMatch_requires_object_argument.1 "a" (.intV 1) (by decide) (fun fields h => Value.noConfusion h),
   objectMatch_requires_object_argument.1 "a" (.strV "string") (by decide) (fun fields h => Value.noConfusion h),
   objectMatch_requires_object_argument.1 "a"
     (.arrV [.objV [("a", .intV 1)], .objV [("b", .intV 1)]]) (by decide)
     (fun fields h => Value.noConfusion h)⟩

/-- C6: a compiled object-match node matches exactly when the resolved field
value is an object satisfying the sub-filter, or an array containing at least
one object element satisfying the sub-filter (array auto-traversal); a scalar
resolved value never matches.  The concrete conjuncts replay the nested
object-match test: inner field paths resolve relative to the inner object,
with one level of array auto-traversal available at each nesting level. -/
theorem objectMatch_matches_semantics :
    (∀ (p : String) (sub : MatchExpression) (doc : Document),
      (MatchExpression.objectMatchE p sub).matchesBSON doc = true ↔
        ((∃ fields, resolve doc p = some (.objV fields) ∧ sub.matchesBSON fields = true) ∨
         (∃ xs, resolve doc p = some (.arrV xs) ∧
            ∃ v ∈ xs, ∃ fields, v = .objV fields ∧ sub.matchesBSON fields = true)))
  ∧ parseAndMatch
      [("a", .objV [("$_internalSchemaObjectMatch", .objV
        [("b", .objV [("$_internalSchemaObjectMatch", .objV
          [("$or", .arrV
            [ .objV [("c", .objV [("$type", .strV "string")])]
            , .objV [("c", .objV [("$gt", .intV 0)])]])])])])])]
      topLevelContext [("a", .intV 1)] = .ok false
  ∧ parseAndMatch
      [("a", .objV [("$_internalSchemaObjectMatch", .objV
        [("b", .objV [("$_internalSchemaObjectMatch", .objV
          [("$or", .arrV
            [ .objV [("c", .objV [("$type", .strV "string")])]
            , .objV [("c", .objV [("$gt", .intV 0)])]])])])])])]
      topLevelContext [("a", .objV [("b", .objV [("c", .objV [])])])] = .ok false
  ∧ parseAndMatch
      [("a", .objV [("$_internalSchemaObjectMatch", .objV
        [("b", .objV [("$_internalSchemaObjectMatch", .objV
          [("$or", .arrV
            [ .objV [("c", .objV [("$type", .strV "string")])]
            , .objV [("c", .objV [("$gt", .intV 0)])]])])])])])]
      topLevelContext [("a", .objV [("b", .objV [("c", .intV 0)])])] = .ok false
  ∧ parseAndMatch
      [("a", .objV [("$_internalSchemaObjectMatch", .objV
        [("b", .objV [("$_internalSchemaObjectMatch", .objV
          [("$or", .arrV
            [ .objV [("c", .objV [("$type", .strV "string")])]
            , .objV [("c", .objV [("$gt", .intV 0)])]])])])])])]
      topLevelContext [("a", .objV [("b", .objV [("c", .strV "string")])])] = .ok true
  ∧ parseAndMatch
      [("a", .objV [("$_internalSchemaObjectMatch", .objV
        [("b", .objV [("$_internalSchemaObjectMatch", .objV
          [("$or", .arrV
            [ .objV [("c", .objV [("$type", .strV "string")])]
            , .objV [("c", .objV [("$gt", .intV 0)])]])])])])])]
      topLevelContext [("a", .objV [("b", .objV [("c", .intV 1)])])] = .ok true
  ∧ parseAndMatch
      [("a", .objV [("$_internalSchemaObjectMatch", .objV
        [("b", .objV [("$_internalSchemaObjectMatch", .objV
          [("$or", .arrV
            [ .objV [("c", .objV [("$type", .strV "string")])]
            , .objV [("c", .objV [("$gt", .intV 0)])]])])])])])]
      topLevelContext
      [("a", .arrV [ .objV [("b", .intV 0)]
                   , .objV [("b", .arrV [.objV [("c", .intV 0)], .objV [("c", .strV "string")]])]])]
      = .ok true := by
  refine ⟨?_, by decide, by decide, by decide, by decide, by decide, by decide⟩
  intro p sub doc
  rcases h : resolve doc p with _ | v
  · simp [MatchExpression.matchesBSON, h]
  · cases v <;> simp [MatchExpression.matchesBSON, h, List.any_eq_true, objElem_match_iff]

/-- C7: every operator keyword restricted by the isolation rule fails
compilation with BadValue — not FailedToParse — when placed inside the
argument of an object-match sub-filter, although the identical keyword
compiles successfully at the filter's top level. -/
theorem isolation_restricted_rejected_in_objectMatch (kw : String)
    (hkw : kw ∈ kTopLevelOnlyOperators) :
    MatchExpressionParser.parse
      [("a", .objV [("$_internalSchemaObjectMatch", .objV [(kw, .intV 1)])])]
      topLevelContext = .error .BadValue
  ∧ MatchExpressionParser.parse [(kw, .intV 1)] topLevelContext = .ok (.andE .trueE .trueE) := by
  simp only [kTopLevelOnlyOperators, List.mem_cons, List.mem_singleton, List.not_mem_nil,
    or_false] at hkw
  rcases hkw with rfl | rfl
  · exact ⟨by decide, by decide⟩
  · exact ⟨by decide, by decide⟩

/-- Witness for C7 at the concrete keyword of the test. -/
theorem isolation_restricted_rejected_in_objectMatch_witness :
    MatchExpressionParser.parse
      [("a", .objV [("$_internalSchemaObjectMatch", .objV [("$isolated", .intV 1)])])]
      topLevelContext = .error .BadValue
  ∧ MatchExpressionParser.parse [("$isolated", .intV 1)] topLevelContext
      = .ok (.andE .trueE .trueE) :=
  isolation_restricted_rejected_in_objectMatch "$isolated" (by decide)

/-! ## InvalidLength: the matcher core versus the command layer -/

theorem noIL_bind {a b : Type} {x : Except ErrorCodes a} {f : a → Except ErrorCodes b}
    (hx : x ≠ .error .InvalidLength) (hf : ∀ u, f u ≠ .error .InvalidLength) :
    (x >>= f) ≠ .error .InvalidLength := by
  rcases x with e | u
  · simpa [Bind.bind, Except.bind] using hx
  · simpa [Bind.bind, Except.bind] using hf u

theorem noIL_map {a b : Type} (f : a → b) {x : Except ErrorCodes a}
    (hx : x ≠ .error .InvalidLength) : (x.map f) ≠ .error .InvalidLength := by
  rcases x with e | u
  · simpa [Except.map] using hx
  · simp [Except.map]

theorem parseIntegerArgument_no_il (v : Value) :
    parseIntegerArgument v ≠ .error .InvalidLength := by
  unfold parseIntegerArgument
  split
  · simp
  · split <;> simp

theorem parseTypeArgument_no_il (p : String) (v : Value) :
    parseTypeArgument p v ≠ .error .InvalidLength := by
  unfold parseTypeArgument
  split <;> simp

mutual

theorem parseDocument_no_il (f : Document) (ctx : CapabilityContext) :
    parseDocument f ctx ≠ .error .InvalidLength := by
  match f with
  | [] => simp [parseDocument]
  | (key, value) :: rest =>
      unfold parseDocument
      split
      · split
        · exact noIL_bind (parseTopLevelOperator_no_il key value ctx)
            (fun e => noIL_bind (parseDocument_no_il rest ctx) (fun es => by simp))
        · simp
      · exact noIL_bind (parsePathValue_no_il key value ctx)
          (fun e => noIL_bind (parseDocument_no_il rest ctx) (fun es => by simp))
termination_by (sizeOf f, 1)

theorem parseTopLevelOperator_no_il (k : String) (v : Value) (ctx : CapabilityContext) :
    parseTopLevelOperator k v ctx ≠ .error .InvalidLength := by
  unfold parseTopLevelOperator
  split
  · split
    · split
      · simp
      · exact noIL_map _ (parseFilterList_no_il _ ctx)
    · simp
  · split
    · split
      · split
        · simp
        · exact noIL_map _ (parseFilterList_no_il _ ctx)
      · simp
    · split
      · simp
      · split <;> simp
termination_by (sizeOf v, 0)

theorem parseFilterList_no_il (l : List Value) (ctx : CapabilityContext) :
    parseFilterList l ctx ≠ .error .InvalidLength := by
  match l with
  | [] => simp [parseFilterList]
  | .objV f :: rest =>
      unfold parseFilterList
      exact noIL_bind (parseDocument_no_il f ctx)
        (fun e => noIL_bind (parseFilterList_no_il rest ctx) (fun es => by simp))
  | .nullV :: rest => simp [parseFilterList]
  | .boolV b :: rest => simp [parseFilterList]
  | .intV n :: rest => simp [parseFilterList]
  | .longV n :: rest => simp [parseFilterList]
  | .doubleV q :: rest => simp [parseFilterList]
  | .decimalV q :: rest => simp [parseFilterList]
  | .strV s :: rest => simp [parseFilterList]
  | .dateV d :: rest => simp [parseFilterList]
  | .oidV s :: rest => simp [parseFilterList]
  | .arrV xs :: rest => simp [parseFilterList]
termination_by (sizeOf l, 0)

theorem parsePathValue_no_il (p : String) (v : Value) (ctx : CapabilityContext) :
    parsePathValue p v ctx ≠ .error .InvalidLength := by
  unfold parsePathValue
  split
  · split
    · exact parseSubOps_no_il p _ ctx
    · simp
  · simp
termination_by (sizeOf v, 0)

theorem parseSubOps_no_il (p : String) (doc : Document) (ctx : CapabilityContext) :
    parseSubOps p doc ctx ≠ .error .InvalidLength := by
  match doc with
  | [] => simp [parseSubOps]
  | (op, arg) :: rest =>
      unfold parseSubOps
      exact noIL_bind (parseSubField_no_il p op arg ctx)
        (fun e => noIL_bind (parseSubOps_no_il p rest ctx) (fun es => by simp))
termination_by (sizeOf doc, 0)

theorem parseSubField_no_il (p op : String) (arg : Value) (ctx : CapabilityContext) :
    parseSubField p op arg ctx ≠ .error .InvalidLength := by
  unfold parseSubField
  split
  · simp
  split
  · simp
  split
  · exact parseTypeArgument_no_il p arg
  split
  · exact noIL_map _ (parseIntegerArgument_no_il arg)
  split
  · exact noIL_map _ (parseIntegerArgument_no_il arg)
  split
  · split <;> simp
  split
  · split
    · exact noIL_map _ (parseDocument_no_il _ ctx.restrictTopLevelOnly)
    · simp
  · simp
termination_by (sizeOf arg, 0)

end

/-- The compiler entry point inherits the property: the matcher core never
produces an InvalidLength parse error. -/
theorem parse_no_invalidLength (f : Document) (ctx : CapabilityContext) :
    MatchExpressionParser.parse f ctx ≠ .error .InvalidLength :=
  parseDocument_no_il f ctx

/-- Propagation of errors through `Except.map`. -/
theorem map_eq_error_iff {a b : Type} (f : a → b) (x : Except ErrorCodes a) (e : ErrorCodes) :
    x.map f = .error e ↔ x = .error e := by
  rcases x with u | u <;> simp [Except.map]

/-- The batch-count check fails with InvalidLength exactly under the
spec-claimed condition: empty batch, oversized batch, or mismatched
statement-id list length. -/
theorem checkOpCount_invalidLength_iff (base : WriteCommandBase) (numOps : ℕ) :
    checkOpCountForCommand base numOps = .error .InvalidLength ↔
      specInvalidLengthCondition base numOps = true := by
  unfold checkOpCountForCommand specInvalidLengthCondition kMaxWriteBatchSize
  rcases base.stmtIds with _ | ids
  · split
    · rename_i h1
      simp
      omega
    · rename_i h1
      simp
      omega
  · split
    · rename_i h1
      split
      · rename_i h2
        simp
        omega
      · rename_i h2
        simp
        omega
    · rename_i h1
      simp
      omega

/-- C8 counterexample: the claim "parsing an insert, update, or delete write
command fails with InvalidLength exactly when the batch has 0 or more than
1000 operations, or a statement-id list of mismatched length is supplied"
(with the predicate-compilation core never raising InvalidLength) is false
on the code: an insert of two documents into `system.indexes` fails with
InvalidLength although its batch size is 2 and no statement-id list is
given. -/
theorem invalidLength_claim_counterexample :
    ¬ ((∀ (f : Document) (ctx : CapabilityContext),
          MatchExpressionParser.parse f ctx ≠ .error .InvalidLength)
      ∧ (∀ c : InsertCommand, InsertOp.parse c = .error .InvalidLength ↔
          specInvalidLengthCondition c.writeCommandBase c.documents.length = true)
      ∧ (∀ c : UpdateCommand, UpdateOp.parse c = .error .InvalidLength ↔
          specInvalidLengthCondition c.writeCommandBase c.updates.length = true)
      ∧ (∀ c : DeleteCommand, DeleteOp.parse c = .error .InvalidLength ↔
          specInvalidLengthCondition c.writeCommandBase c.deletes.length = true)) := by
  rintro ⟨-, hins, -, -⟩
  have h := (hins ⟨true, ⟨none⟩, [[], []]⟩).mp (by decide)
  exact absurd h (by decide)

/-- C8 amended: the predicate-compilation core never raises InvalidLength;
in the command layer, update and delete parsing fail with InvalidLength
exactly when the batch has 0 or more than 1000 operations or a statement-id
list of mismatched length is supplied, and insert parsing additionally fails
with InvalidLength when the target is `system.indexes` and the batch does
not hold exactly one document. -/
theorem invalidLength_characterization :
    (∀ (f : Document) (ctx : CapabilityContext),
        MatchExpressionParser.parse f ctx ≠ .error .InvalidLength)
  ∧ (∀ c : InsertCommand, InsertOp.parse c = .error .InvalidLength ↔
      (specInvalidLengthCondition c.writeCommandBase c.documents.length = true
        ∨ (c.nsIsSystemDotIndexes = true ∧ c.documents.length ≠ 1)))
  ∧ (∀ c : UpdateCommand, UpdateOp.parse c = .error .InvalidLength ↔
      specInvalidLengthCondition c.writeCommandBase c.updates.length = true)
  ∧ (∀ c : DeleteCommand, DeleteOp.parse c = .error .InvalidLength ↔
      specInvalidLengthCondition c.writeCommandBase c.deletes.length = true) := by
  refine ⟨parse_no_invalidLength, ?_, ?_, ?_⟩
  · intro c
    unfold InsertOp.parse
    split
    · rename_i h
      constructor
      · intro _
        exact Or.inr ⟨h.1, h.2⟩
      · intro _
        rfl
    · rename_i h
      rw [map_eq_error_iff, checkOpCount_invalidLength_iff]
      constructor
      · exact Or.inl
      · rintro (hc | hsys)
        · exact hc
        · exact absurd hsys h
  · intro c
    unfold UpdateOp.parse
    rw [map_eq_error_iff, checkOpCount_invalidLength_iff]
  · intro c
    unfold DeleteOp.parse
    rw [map_eq_error_iff, checkOpCount_invalidLength_iff]

/-- Witness for C8 (amended) at concrete commands: an empty insert batch and
an update batch with a mismatched statement-id list both fail with
InvalidLength. -/
theorem invalidLength_characterization_witness :
    InsertOp.parse ⟨false, ⟨none⟩, []⟩ = .error .InvalidLength
  ∧ UpdateOp.parse ⟨⟨some []⟩, [⟨[], [], false, false⟩]⟩ = .error .InvalidLength :=
  ⟨(invalidLength_characterization.2.1 ⟨false, ⟨none⟩, []⟩).mpr (Or.inl (by decide)),
   (invalidLength_characterization.2.2.1 ⟨⟨some []⟩, [⟨[], [], false, false⟩]⟩).mpr (by decide)⟩

/-- C9: `writeMultiDeleteProperty` appends the integer 0 for isMulti = true
and 1 for isMulti = false; `readMultiDeleteProperty` inverts it (round-trip
identity), returns true exactly when the limit element's numeric value is 0,
false exactly when it is 1, and fails with FailedToParse on every other
value, including the fractional 0.5. -/
theorem multiDelete_read_write_roundtrip :
    (∀ b : Bool, writeMultiDeleteProperty b = .intV (if b then 0 else 1))
  ∧ (∀ b : Bool, readMultiDeleteProperty (writeMultiDeleteProperty b) = .ok b)
  ∧ (∀ e : Value, readMultiDeleteProperty e = .ok true ↔ numberDouble e = 0)
  ∧ (∀ e : Value, readMultiDeleteProperty e = .ok false ↔ numberDouble e = 1)
  ∧ (∀ e : Value, numberDouble e ≠ 0 → numberDouble e ≠ 1 →
      readMultiDeleteProperty e = .error .FailedToParse)
  ∧ readMultiDeleteProperty (.doubleV (mkRat 1 2)) = .error .FailedToParse := by
  refine ⟨?_, ?_, ?_, ?_, ?_, by decide⟩
  · intro b
    cases b <;> rfl
  · intro b
    cases b <;> decide
  · intro e
    by_cases h0 : numberDouble e = 0
    · simp [readMultiDeleteProperty, h0]
    · by_cases h1 : numberDouble e = 1
      · simp [readMultiDeleteProperty, h0, h1]
      · simp [readMultiDeleteProperty, h0, h1]
  · intro e
    by_cases h0 : numberDouble e = 0
    · simp [readMultiDeleteProperty, h0]
    · by_cases h1 : numberDouble e = 1
      · simp [readMultiDeleteProperty, h0, h1]
      · simp [readMultiDeleteProperty, h0, h1]
  · intro e h0 h1
    simp [readMultiDeleteProperty, h0, h1]

/-- Witness for C9: the round trip at true, and a limit of 5 failing. -/
theorem multiDelete_read_write_roundtrip_witness :
    readMultiDeleteProperty (writeMultiDeleteProperty true) = .ok true
  ∧ readMultiDeleteProperty (.longV 5) = .error .FailedToParse :=
  ⟨multiDelete_read_write_roundtrip.2.1 true,
   multiDelete_read_write_roundtrip.2.2.2.2.1 (.longV 5)
     (by norm_num [numberDouble]) (by norm_num [numberDouble])⟩

/-- C10 counterexample: with no statement-id list, the claim says the
function returns the write position itself for every position, but at
position 2^31 the `int32_t` return type wraps: the code returns -2^31, not
2^31. -/
theorem getStmtIdForWriteAt_claim_counterexample :
    getStmtIdForWriteAt ⟨none⟩ (2 ^ 31) = some (-(2 ^ 31 : Int))
  ∧ getStmtIdForWriteAt ⟨none⟩ (2 ^ 31) ≠ some ((2 ^ 31 : ℕ) : Int) := by
  constructor <;> decide

/-- C10 amended: `getStmtIdForWriteAt` returns the p-th entry of the
statement-id list when one is present; when none is present it returns p
itself (`kFirstStmtId + p` with `kFirstStmtId = 0`) for every position
p < 2^31 — below the wrap-around of the `int32_t` return type, far above the
batch-size limit of 1000 — so statement ids default to 0, 1, 2, ... in batch
order. -/
theorem getStmtIdForWriteAt_spec (base : WriteCommandBase) (p : ℕ) :
    (∀ ids, base.stmtIds = some ids → getStmtIdForWriteAt base p = ids.get? p)
  ∧ (∀ ids (h : p < ids.length), base.stmtIds = some ids →
      getStmtIdForWriteAt base p = some (ids.get ⟨p, h⟩))
  ∧ (base.stmtIds = none → p < 2 ^ 31 →
      getStmtIdForWriteAt base p = some (p : Int)) := by
  refine ⟨?_, ?_, ?_⟩
  · intro ids h
    simp [getStmtIdForWriteAt, h]
  · intro ids h hsome
    simp [getStmtIdForWriteAt, hsome, List.get?_eq_get h]
  · intro h hlt
    have h64 : (kFirstStmtId.toNat + p) % 2 ^ 64 = p := by
      rw [show kFirstStmtId.toNat = 0 from rfl, Nat.zero_add]
      exact Nat.mod_eq_of_lt (lt_trans hlt (by norm_num))
    have h32 : p % 2 ^ 32 = p := Nat.mod_eq_of_lt (lt_trans hlt (by norm_num))
    have hval : toInt32 ((kFirstStmtId.toNat + p) % 2 ^ 64) = (p : Int) := by
      rw [h64]
      unfold toInt32
      rw [h32, if_pos hlt]
    simpa [getStmtIdForWriteAt, h] using hval

/-- Witness for C10 (amended): explicit list at position 1, and the default
sequence at position 3. -/
theorem getStmtIdForWriteAt_spec_witness :
    getStmtIdForWriteAt ⟨some [5, 7]⟩ 1 = some 7
  ∧ getStmtIdForWriteAt ⟨none⟩ 3 = some 3 :=
  ⟨by
    have h := (getStmtIdForWriteAt_spec ⟨some [5, 7]⟩ 1).2.1 [5, 7] (by decide) rfl
    simpa using h,
   by
    have h := (getStmtIdForWriteAt_spec ⟨none⟩ 3).2.2 rfl (by norm_num)
    simpa using h⟩
